import Mathlib

/-!
Shallow embedding of the NyRAG deploy orchestration (src/nyrag/deploy.py)
and the text-chunking helper (src/nyrag/utils.py), with theorems checking
the natural-language specification against the code.

Python strings are modeled as Lean `String`; the Python `str` methods used
by the source (`lower`, `strip`, `split`, `join`, substring membership via
`in`) are given explicit structural definitions over the character list so
that every definition evaluates by kernel reduction.
-/

namespace NyRAG

/-- `subseg needle l` decides whether `needle` occurs as a contiguous
segment of `l`. -/
def subseg (needle : List Char) : List Char → Bool
  | [] => needle.isEmpty
  | c :: cs => needle.isPrefixOf (c :: cs) || subseg needle cs

/-- Python `needle in haystack` substring test (case-sensitive). -/
def strContains (haystack needle : String) : Bool :=
  subseg needle.data haystack.data

/-- Python `str.lower()` (ASCII case folding, as used by the source on
ASCII error-message tokens). -/
def pyLower (s : String) : String :=
  String.mk (s.data.map Char.toLower)

/-- Drop leading whitespace characters from a character list. -/
def dropWS : List Char → List Char
  | [] => []
  | c :: cs => if c.isWhitespace then dropWS cs else c :: cs

/-- Python `str.strip()`: remove leading and trailing whitespace. -/
def pyStrip (s : String) : String :=
  String.mk ((dropWS ((dropWS s.data).reverse)).reverse)

/-- Accumulator for Python `str.split()`: split on whitespace runs,
discarding empty pieces.  `acc` holds the current word reversed. -/
def pySplitAux : List Char → List Char → List String
  | [], acc => if acc.isEmpty then [] else [String.mk acc.reverse]
  | c :: cs, acc =>
    if c.isWhitespace then
      if acc.isEmpty then pySplitAux cs []
      else String.mk acc.reverse :: pySplitAux cs []
    else pySplitAux cs (c :: acc)

/-- Python `text.split()` with no separator argument. -/
def pySplit (text : String) : List String :=
  pySplitAux text.data []

/-- Python `sep.join(words)`. -/
def pyJoin (sep : String) : List String → String
  | [] => ""
  | [w] => w
  | w :: ws => w ++ sep ++ pyJoin sep ws

/-- `_CLUSTER_REMOVAL_ALLOWLIST_TOKEN` from deploy.py. -/
def CLUSTER_REMOVAL_ALLOWLIST_TOKEN : String := "content-cluster-removal"

/-- `_MISSING_PACKAGE_ERROR` from deploy.py. -/
def MISSING_PACKAGE_ERROR : String :=
  "Either application_package or application_root must be set"

/-- `_looks_like_cluster_removal_error` from deploy.py.  Python's
`if not message` is the empty-string test for a string argument. -/
def looks_like_cluster_removal_error (message : String) : Bool :=
  if message = "" then false
  else
    let lowered := pyLower message
    if strContains lowered CLUSTER_REMOVAL_ALLOWLIST_TOKEN then true
    else strContains lowered "content cluster" && strContains lowered "removed"

/-- A calendar date, counted in days since 0000-03-01 (proleptic
Gregorian).  Models Python `datetime.date`. -/
structure Date where
  epochDays : Nat
deriving DecidableEq, Repr

/-- Python `date + timedelta(days=n)`. -/
def Date.addDays (d : Date) (n : Nat) : Date :=
  { epochDays := d.epochDays + n }

/-- Zero-pad a numeral to two digits. -/
def pad2 (n : Nat) : String :=
  if n < 10 then "0" ++ toString n else toString n

/-- Zero-pad a numeral to four digits. -/
def pad4 (n : Nat) : String :=
  if n < 10 then "000" ++ toString n
  else if n < 100 then "00" ++ toString n
  else if n < 1000 then "0" ++ toString n
  else toString n

/-- Civil (year, month, day) from a day count, standard Gregorian
conversion with era = 400-year cycles. -/
def Date.ymd (d : Date) : Nat × Nat × Nat :=
  let z := d.epochDays
  let era := z / 146097
  let doe := z % 146097
  let yoe := (doe - doe / 1460 + doe / 36524 - doe / 146096) / 365
  let y := yoe + era * 400
  let doy := doe - (365 * yoe + yoe / 4 - yoe / 100)
  let mp := (5 * doy + 2) / 153
  let dd := doy - (153 * mp + 2) / 5 + 1
  let mm := if mp < 10 then mp + 3 else mp - 9
  (if mm ≤ 2 then y + 1 else y, mm, dd)

/-- Python `date.isoformat()`: the ISO-8601 form YYYY-MM-DD. -/
def Date.isoformat (d : Date) : String :=
  pad4 d.ymd.1 ++ "-" ++ pad2 d.ymd.2.1 ++ "-" ++ pad2 d.ymd.2.2

/-- `_validation_overrides_xml` from deploy.py (apostrophes written as
the escape \x27). -/
def validation_overrides_xml (untilDate : Date) : String :=
  "<validation-overrides>\n" ++
    ("  <allow until=\x27" ++ untilDate.isoformat ++ "\x27>" ++
      CLUSTER_REMOVAL_ALLOWLIST_TOKEN ++ "</allow>\n") ++
    "</validation-overrides>\n"

/-- Observable behavior of one `_confirm_cluster_removal` call. -/
structure GateResult where
  confirmed : Bool
  warned : Bool
  promptShown : Bool
  linesRead : Nat
deriving DecidableEq, Repr

/-- `_confirm_cluster_removal` from deploy.py.  The process boundary is
explicit: `isatty` is `sys.stdin.isatty()` and `inputLine` is the line
`console.input` would return.  Python tests the answer with
`answer.strip().lower() in set("y", "yes")`. -/
def confirm_cluster_removal (_message : String) (_untilDate : Date)
    (isatty : Bool) (inputLine : String) : GateResult :=
  if !isatty then
    { confirmed := false, warned := true, promptShown := false, linesRead := 0 }
  else
    { confirmed := pyLower (pyStrip inputLine) == "y" ||
        pyLower (pyStrip inputLine) == "yes",
      warned := false, promptShown := true, linesRead := 1 }

/-- A Python exception as seen by deploy.py: whether it is a `TypeError`
(the only class the code tests with `isinstance`) and its `str(...)`
message. -/
structure PyErr where
  isTypeError : Bool
  message : String
deriving DecidableEq, Repr

/-- A deployed-application handle (opaque to the orchestrator). -/
abbrev Handle := Nat

/-- Behavior of one pyvespa deployer object: the outcome of each of the
three call shapes `_deploy_with_pyvespa` may attempt.  `shape1` is
`deploy(application_package=...)`, `shape2` is
`deploy(application_root=...)`, and `shape0` is the last-resort `deploy()`
after the attribute-probing loop (whose silent `setattr` probing has no
effect observable by this module). -/
structure Deployer where
  shape1 : Except PyErr Handle
  shape2 : Except PyErr Handle
  shape0 : Except PyErr Handle

/-- `_should_fallback` from `_deploy_with_pyvespa`: a TypeError, or a
message containing `_MISSING_PACKAGE_ERROR`. -/
def should_fallback (e : PyErr) : Bool :=
  e.isTypeError || strContains e.message MISSING_PACKAGE_ERROR

/-- `_deploy_with_pyvespa` from deploy.py.  Returns the final outcome and
how many call shapes were attempted. -/
def deploy_with_pyvespa (d : Deployer) : Except PyErr Handle × Nat :=
  match d.shape1 with
  | Except.ok h => (Except.ok h, 1)
  | Except.error e1 =>
    if should_fallback e1 then
      match d.shape2 with
      | Except.ok h => (Except.ok h, 2)
      | Except.error e2 =>
        if should_fallback e2 then (d.shape0, 3)
        else (Except.error e2, 2)
    else (Except.error e1, 1)

/-- An application-root directory: either a caller-supplied directory or
the n-th process-owned temporary directory created during the call. -/
inductive Dir where
  | caller (id : Nat)
  | temp (id : Nat)
deriving DecidableEq, Repr

/-- The external world of one `deploy_app_package` call: the resolved
deploy mode and tenant from the config, the deployer client each loop
iteration would construct (with the outcomes of its deploy call shapes),
the interactivity of stdin, the lines stdin would yield, and today's
date. -/
structure Env where
  isLocalMode : Bool
  cloudTenant : String
  deployers : Nat → Deployer
  stdinIsatty : Bool
  inputLines : Nat → String
  today : Date

/-- Observable side effects of a `deploy_app_package` call. -/
structure Trace where
  overrideWrites : List (Dir × String)
  gateCalls : Nat
  gateWarnings : Nat
  linesRead : Nat
  clientsConstructed : Nat
  deployCalls : Nat
  attemptDirs : List Dir
deriving DecidableEq, Repr

/-- The empty trace at the start of a call. -/
def Trace.init : Trace :=
  { overrideWrites := [], gateCalls := 0, gateWarnings := 0, linesRead := 0,
    clientsConstructed := 0, deployCalls := 0, attemptDirs := [] }

/-- The RuntimeError raised in cloud mode when the config has no tenant. -/
def tenantErr : PyErr :=
  { isTypeError := false, message := "Missing env var: VESPA_CLOUD_TENANT" }

/-- The `try:` body of one iteration of the `while True` loop in
`deploy_app_package`: resolve the effective application root (a fresh
temporary directory, with the package materialized into it, when the
caller supplied none), then branch on the mode.  Docker mode constructs
the resolved client and deploys; cloud mode first requires a non-empty
tenant (raising `tenantErr` before constructing anything), then
constructs the cloud client and deploys.  Returns the body's outcome
(`ok` = the source's `return True`), the next fresh-temp-dir counter, and
the accumulated trace. -/
def attemptBody (env : Env) (appDir : Option Dir) (attemptIdx tempCtr : Nat)
    (tr : Trace) : Except PyErr Unit × Nat × Trace :=
  let effDir := appDir.getD (Dir.temp tempCtr)
  let tempCtr2 := match appDir with | some _ => tempCtr | none => tempCtr + 1
  let tr1 := { tr with attemptDirs := tr.attemptDirs ++ [effDir] }
  if env.isLocalMode then
    let tr2 := { tr1 with clientsConstructed := tr1.clientsConstructed + 1 }
    let res := (deploy_with_pyvespa (env.deployers attemptIdx)).1
    let tr3 := { tr2 with deployCalls := tr2.deployCalls + 1 }
    (res.map (fun _ => ()), tempCtr2, tr3)
  else if env.cloudTenant = "" then
    (Except.error tenantErr, tempCtr2, tr1)
  else
    let tr2 := { tr1 with clientsConstructed := tr1.clientsConstructed + 1 }
    let res := (deploy_with_pyvespa (env.deployers attemptIdx)).1
    let tr3 := { tr2 with deployCalls := tr2.deployCalls + 1 }
    (res.map (fun _ => ()), tempCtr2, tr3)

/-- Result of `deploy_app_package`: a normal boolean return or a
propagated exception. -/
inductive DeployResult where
  | ok (value : Bool)
  | err (e : PyErr)
deriving DecidableEq, Repr

/-- The `while True` loop of `deploy_app_package`, with explicit fuel
(the source loop is unbounded syntactically; its termination is the
subject of claim C1).  On a body failure classified as cluster removal
with no override attempted yet, the confirmation gate runs; denial
returns `false`, confirmation writes `validation-overrides.xml` into the
target directory (the caller's directory, or a fresh temporary directory
with the package re-materialized) and loops with `app_dir` rebound to
that directory and `attempted_override = True`.  Any other failure, or a
classified failure after an override was already attempted, re-raises. -/
def deployLoop (env : Env) :
    Nat → Option Dir → Bool → Nat → Nat → Trace → Option (DeployResult × Trace)
  | 0, _, _, _, _, _ => none
  | Nat.succ fuel, appDir, attemptedOverride, attemptIdx, tempCtr, tr =>
    match attemptBody env appDir attemptIdx tempCtr tr with
    | (Except.ok _, _, tr1) => some (DeployResult.ok true, tr1)
    | (Except.error e, tempCtr1, tr1) =>
      if looks_like_cluster_removal_error e.message && !attemptedOverride then
        let untilDate := env.today.addDays 7
        let g := confirm_cluster_removal e.message untilDate env.stdinIsatty
          (env.inputLines tr1.gateCalls)
        let tr2 :=
          { tr1 with
            gateCalls := tr1.gateCalls + 1,
            gateWarnings := tr1.gateWarnings + (if g.warned then 1 else 0),
            linesRead := tr1.linesRead + g.linesRead }
        if g.confirmed then
          let target := appDir.getD (Dir.temp tempCtr1)
          let tempCtr2 := match appDir with
            | some _ => tempCtr1
            | none => tempCtr1 + 1
          let tr3 :=
            { tr2 with
              overrideWrites :=
                tr2.overrideWrites ++
                  [(target, validation_overrides_xml untilDate)] }
          deployLoop env fuel (some target) true (attemptIdx + 1) tempCtr2 tr3
        else
          some (DeployResult.ok false, tr2)
      else
        some (DeployResult.err e, tr1)

/-- `deploy_app_package` from deploy.py, with the loop fuel explicit. -/
def deploy_app_package (fuel : Nat) (app_dir : Option Dir) (env : Env) :
    Option (DeployResult × Trace) :=
  deployLoop env fuel app_dir false 0 0 Trace.init

/-- The word-window loop of `chunks` from utils.py: while
`start < words.length`, emit `" ".join(words[start:start+cs])` (clipped at
the end) and advance `start` by `cs - ov`.  `fuel` bounds the iteration
count; `words.length` iterations always suffice because each step
advances `start` by at least one. -/
def chunkLoop (words : List String) (cs ov : Nat) : Nat → Nat → List String
  | _, 0 => []
  | start, Nat.succ fuel =>
    if start < words.length then
      pyJoin " " ((words.drop start).take cs) ::
        chunkLoop words cs ov (start + (cs - ov)) fuel
    else []

/-- `chunks` from utils.py.  Python ints may be negative, so the
arguments are `Int`; a raised `ValueError` is an `Except.error` carrying
its message. -/
def chunks (text : String) (chunk_size overlap : Int) :
    Except String (List String) :=
  if chunk_size ≤ 0 then Except.error "chunk_size must be greater than 0"
  else if overlap < 0 then Except.error "overlap must be non-negative"
  else if chunk_size ≤ overlap then
    Except.error "overlap must be less than chunk_size"
  else
    let words := pySplit text
    if words.length ≤ chunk_size.toNat then Except.ok [text]
    else Except.ok (chunkLoop words chunk_size.toNat overlap.toNat 0 words.length)

/-- Claim C2: the failure classifier returns true for a message string iff
the message contains the literal token "content-cluster-removal"
case-insensitively, or contains both "content cluster" and "removed"
case-insensitively in any order; the empty string classifies false. -/
theorem C2_failure_classifier (msg : String) :
    (looks_like_cluster_removal_error msg = true ↔
      strContains (pyLower msg) CLUSTER_REMOVAL_ALLOWLIST_TOKEN = true ∨
        (strContains (pyLower msg) "content cluster" = true ∧
         strContains (pyLower msg) "removed" = true)) ∧
    looks_like_cluster_removal_error "" = false := by
  refine ⟨?_, by decide⟩
  by_cases h : msg = ""
  · subst h; decide
  · unfold looks_like_cluster_removal_error
    simp only [if_neg h]
    cases h1 : strContains (pyLower msg) CLUSTER_REMOVAL_ALLOWLIST_TOKEN <;>
      cases h2 : strContains (pyLower msg) "content cluster" <;>
        cases h3 : strContains (pyLower msg) "removed" <;>
          simp_all

/-- Claim C5: with non-interactive stdin the confirmation gate logs a
warning and returns false without reading any input line, for every
message and expiry date. -/
theorem C5_gate_non_interactive (message : String) (untilDate : Date)
    (inputLine : String) :
    confirm_cluster_removal message untilDate false inputLine =
      { confirmed := false, warned := true, promptShown := false,
        linesRead := 0 } := rfl

/-- Claim C6: with interactive stdin the confirmation gate confirms iff
the input line, stripped and lowercased, is exactly "y" or "yes"; all
other answers (empty, whitespace-only, "n", "no", "Yes!") deny. -/
theorem C6_gate_interactive (message : String) (untilDate : Date)
    (inputLine : String) :
    ((confirm_cluster_removal message untilDate true inputLine).confirmed = true ↔
      (pyLower (pyStrip inputLine) = "y" ∨ pyLower (pyStrip inputLine) = "yes")) ∧
    (confirm_cluster_removal message untilDate true " y ").confirmed = true ∧
    (confirm_cluster_removal message untilDate true "YES").confirmed = true ∧
    (confirm_cluster_removal message untilDate true "").confirmed = false ∧
    (confirm_cluster_removal message untilDate true "   ").confirmed = false ∧
    (confirm_cluster_removal message untilDate true "n").confirmed = false ∧
    (confirm_cluster_removal message untilDate true "no").confirmed = false ∧
    (confirm_cluster_removal message untilDate true "Yes!").confirmed = false := by
  refine ⟨?_, rfl, rfl, rfl, rfl, rfl, rfl, rfl⟩
  unfold confirm_cluster_removal
  simp

/-- Claim C7: in the version-adaptive invoker, a first call shape failing
with a shape mismatch (TypeError or missing-package message) followed by
a successful second shape yields the second call's result with the first
failure not propagating, while a non-shape-mismatch failure at any shape
propagates immediately with no later shape attempted. -/
theorem C7_version_adaptive_invoker
    (d1 : Deployer) (e1 : PyErr) (h : Handle)
    (h11 : d1.shape1 = Except.error e1)
    (h12 : should_fallback e1 = true)
    (h13 : d1.shape2 = Except.ok h)
    (d2 : Deployer) (e2 : PyErr)
    (h21 : d2.shape1 = Except.error e2)
    (h22 : should_fallback e2 = false)
    (d3 : Deployer) (e3 e4 : PyErr)
    (h31 : d3.shape1 = Except.error e3)
    (h32 : should_fallback e3 = true)
    (h33 : d3.shape2 = Except.error e4)
    (h34 : should_fallback e4 = false) :
    deploy_with_pyvespa d1 = (Except.ok h, 2) ∧
    deploy_with_pyvespa d2 = (Except.error e2, 1) ∧
    deploy_with_pyvespa d3 = (Except.error e4, 2) := by
  unfold deploy_with_pyvespa
  rw [h11, h21, h31]
  simp [h12, h13, h22, h32, h33, h34]

/-- A first-shape failure that is a shape mismatch (a TypeError). -/
def wErrMismatch : PyErr :=
  { isTypeError := true,
    message := "deploy() got an unexpected keyword argument" }

/-- A failure that is not a shape mismatch (e.g. a network error). -/
def wErrOther : PyErr :=
  { isTypeError := false, message := "network unreachable" }

/-- Deployer failing shape 1 with a mismatch and succeeding on shape 2. -/
def wDep1 : Deployer :=
  { shape1 := Except.error wErrMismatch, shape2 := Except.ok 7,
    shape0 := Except.ok 0 }

/-- Deployer failing shape 1 with a non-mismatch error. -/
def wDep2 : Deployer :=
  { shape1 := Except.error wErrOther, shape2 := Except.ok 7,
    shape0 := Except.ok 0 }

/-- Deployer failing shape 1 with a mismatch and shape 2 with a
non-mismatch error. -/
def wDep3 : Deployer :=
  { shape1 := Except.error wErrMismatch, shape2 := Except.error wErrOther,
    shape0 := Except.ok 0 }

/-- Witness for claim C7 at concrete deployers. -/
theorem C7_version_adaptive_invoker_witness :
    deploy_with_pyvespa wDep1 = (Except.ok 7, 2) ∧
    deploy_with_pyvespa wDep2 = (Except.error wErrOther, 1) ∧
    deploy_with_pyvespa wDep3 = (Except.error wErrOther, 2) :=
  C7_version_adaptive_invoker wDep1 wErrMismatch 7 rfl (by decide) rfl
    wDep2 wErrOther rfl (by decide)
    wDep3 wErrMismatch wErrOther rfl (by decide) rfl (by decide)

/-- The loop body never touches the gate counters, the read-line counter
or the override-file writes, and appends exactly the resolved effective
directory to the attempted-directory log. -/
theorem attemptBody_trace_fields (env : Env) (d : Option Dir) (i c : Nat)
    (tr : Trace) :
    (attemptBody env d i c tr).2.2.gateCalls = tr.gateCalls ∧
    (attemptBody env d i c tr).2.2.gateWarnings = tr.gateWarnings ∧
    (attemptBody env d i c tr).2.2.linesRead = tr.linesRead ∧
    (attemptBody env d i c tr).2.2.overrideWrites = tr.overrideWrites ∧
    (attemptBody env d i c tr).2.2.attemptDirs =
      tr.attemptDirs ++ [d.getD (Dir.temp c)] := by
  unfold attemptBody
  cases h1 : env.isLocalMode <;> by_cases h2 : env.cloudTenant = "" <;>
    simp [h1, h2]

/-- When the deploy call is reached and succeeds, the body returns ok. -/
theorem attemptBody_result_ok (env : Env) (d : Option Dir) (i c : Nat)
    (tr : Trace) (h : Handle)
    (hreach : env.isLocalMode = true ∨ env.cloudTenant ≠ "")
    (hdep : (deploy_with_pyvespa (env.deployers i)).1 = Except.ok h) :
    (attemptBody env d i c tr).1 = Except.ok () := by
  unfold attemptBody
  rcases hreach with hl | ht
  · simp [hl, hdep, Except.map]
  · cases h1 : env.isLocalMode <;> simp [h1, ht, hdep, Except.map]

/-- When the deploy call is reached and fails, the body raises that
failure. -/
theorem attemptBody_result_err (env : Env) (d : Option Dir) (i c : Nat)
    (tr : Trace) (e : PyErr)
    (hreach : env.isLocalMode = true ∨ env.cloudTenant ≠ "")
    (hdep : (deploy_with_pyvespa (env.deployers i)).1 = Except.error e) :
    (attemptBody env d i c tr).1 = Except.error e := by
  unfold attemptBody
  rcases hreach with hl | ht
  · simp [hl, hdep, Except.map]
  · cases h1 : env.isLocalMode <;> simp [h1, ht, hdep, Except.map]

/-- In cloud mode with an empty tenant, the body raises the tenant error
without constructing a client or calling deploy. -/
theorem attemptBody_tenant (env : Env) (d : Option Dir) (i c : Nat)
    (tr : Trace) (h1 : env.isLocalMode = false) (h2 : env.cloudTenant = "") :
    (attemptBody env d i c tr).1 = Except.error tenantErr ∧
    (attemptBody env d i c tr).2.2.clientsConstructed =
      tr.clientsConstructed ∧
    (attemptBody env d i c tr).2.2.deployCalls = tr.deployCalls := by
  unfold attemptBody
  simp [h1, h2]

/-- A body failure whose message is not the tenant message can only come
from the deploy call, so the deploy call was reached. -/
theorem attemptBody_reach (env : Env) (d : Option Dir) (i c : Nat)
    (tr : Trace) (e : PyErr)
    (hbody : (attemptBody env d i c tr).1 = Except.error e)
    (hne : e.message ≠ tenantErr.message) :
    env.isLocalMode = true ∨ env.cloudTenant ≠ "" := by
  cases h1 : env.isLocalMode
  · by_cases h2 : env.cloudTenant = ""
    · exfalso
      rw [(attemptBody_tenant env d i c tr h1 h2).1] at hbody
      injection hbody with hbody
      exact hne (by rw [← hbody])
    · exact Or.inr h2
  · exact Or.inl rfl

/-- Once an override has been attempted, the loop body runs exactly once
more: a success returns true and any failure is re-raised, with no
further retry. -/
theorem deployLoop_attempted (env : Env) (m : Nat) (d : Option Dir)
    (i c : Nat) (tr : Trace) :
    deployLoop env (Nat.succ m) d true i c tr =
      (match attemptBody env d i c tr with
        | (Except.ok _, _, tr1) => some (DeployResult.ok true, tr1)
        | (Except.error e, _, tr1) => some (DeployResult.err e, tr1)) := by
  simp only [deployLoop]
  rcases hab : attemptBody env d i c tr with ⟨res, c1, tr1⟩
  cases res <;> simp

/-- Fuel 2 decides the loop: any further fuel gives the same outcome. -/
theorem deployLoop_fuel_stable (env : Env) (m : Nat) (d : Option Dir)
    (i c : Nat) (tr : Trace) :
    deployLoop env (m + 2) d false i c tr = deployLoop env 2 d false i c tr := by
  show deployLoop env (Nat.succ (Nat.succ m)) d false i c tr =
    deployLoop env (Nat.succ (Nat.succ Nat.zero)) d false i c tr
  simp only [deployLoop]
  rcases hab : attemptBody env d i c tr with ⟨res, c1, tr1⟩
  cases res with
  | ok _ => rfl
  | error e =>
    cases hcl : looks_like_cluster_removal_error e.message with
    | false => simp [hcl]
    | true =>
      simp only [hcl, Bool.true_and, Bool.not_false, if_true]
      cases hg : (confirm_cluster_removal e.message (env.today.addDays 7)
          env.stdinIsatty (env.inputLines tr1.gateCalls)).confirmed with
      | false => simp [hg]
      | true =>
        simp only [hg, if_true, Bool.not_true, Bool.and_false]
        split <;> simp

/-- With at least fuel 2 the loop result does not depend on the fuel. -/
theorem deployLoop_ge_two (env : Env) (fuel : Nat) (hfuel : 2 ≤ fuel)
    (d : Option Dir) (i c : Nat) (tr : Trace) :
    deployLoop env fuel d false i c tr = deployLoop env 2 d false i c tr := by
  obtain ⟨m, rfl⟩ : ∃ m, fuel = m + 2 := ⟨fuel - 2, by omega⟩
  exact deployLoop_fuel_stable env m d i c tr

/-- With fuel 2 the loop always produces a result. -/
theorem deployLoop_two_isSome (env : Env) (d : Option Dir) (i c : Nat)
    (tr : Trace) :
    (deployLoop env 2 d false i c tr).isSome = true := by
  show (deployLoop env (Nat.succ (Nat.succ Nat.zero)) d false i c tr).isSome =
    true
  simp only [deployLoop]
  rcases hab : attemptBody env d i c tr with ⟨res, c1, tr1⟩
  cases res with
  | ok _ => rfl
  | error e =>
    cases hcl : looks_like_cluster_removal_error e.message with
    | false => simp [hcl]
    | true =>
      simp only [hcl, Bool.true_and, Bool.not_false, if_true]
      cases hg : (confirm_cluster_removal e.message (env.today.addDays 7)
          env.stdinIsatty (env.inputLines tr1.gateCalls)).confirmed with
      | false => simp [hg]
      | true =>
        simp only [hg, if_true, Bool.not_true, Bool.and_false]
        split <;> simp

/-- Claim C1: per `deploy_app_package` call the loop body runs at most
twice — any fuel of at least 2 gives the fuel-2 outcome and fuel 2 always
yields a result — and once an override has been attempted, a further
failure classified as cluster removal is re-raised rather than
retried. -/
theorem C1_at_most_one_override (env : Env) (d : Option Dir) (fuel : Nat)
    (hfuel : 2 ≤ fuel)
    (env2 : Env) (d2 : Option Dir) (idx2 ctr2 fuel2 : Nat) (tr2 : Trace)
    (e : PyErr)
    (hbody : (attemptBody env2 d2 idx2 ctr2 tr2).1 = Except.error e)
    (_hclass : looks_like_cluster_removal_error e.message = true) :
    deployLoop env fuel d false 0 0 Trace.init =
      deployLoop env 2 d false 0 0 Trace.init ∧
    (deployLoop env 2 d false 0 0 Trace.init).isSome = true ∧
    deployLoop env2 (Nat.succ fuel2) d2 true idx2 ctr2 tr2 =
      some (DeployResult.err e, (attemptBody env2 d2 idx2 ctr2 tr2).2.2) := by
  refine ⟨deployLoop_ge_two env fuel hfuel d 0 0 Trace.init,
    deployLoop_two_isSome env d 0 0 Trace.init, ?_⟩
  rw [deployLoop_attempted]
  rcases hab : attemptBody env2 d2 idx2 ctr2 tr2 with ⟨res, c1, tr1⟩
  rw [hab] at hbody
  simp only [Prod.fst] at hbody
  subst hbody
  simp

/-- A platform refusal message classified as cluster removal. -/
def cErr : PyErr :=
  { isTypeError := false,
    message :=
      "Deployment failed: content-cluster-removal validation override required" }

/-- A deployer refusing every call shape with the cluster-removal
message. -/
def refusingDeployer : Deployer :=
  { shape1 := Except.error cErr, shape2 := Except.error cErr,
    shape0 := Except.error cErr }

/-- Local-mode world whose deploys are refused with the cluster-removal
message, with non-interactive stdin. -/
def envW1 : Env :=
  { isLocalMode := true, cloudTenant := "",
    deployers := fun _ => refusingDeployer, stdinIsatty := false,
    inputLines := fun _ => "", today := { epochDays := 738000 } }

/-- Witness for claim C1 at a concrete world. -/
theorem C1_at_most_one_override_witness :
    2 ≤ 2 ∧
    (attemptBody envW1 none 0 0 Trace.init).1 = Except.error cErr ∧
    looks_like_cluster_removal_error cErr.message = true ∧
    (deployLoop envW1 2 none false 0 0 Trace.init =
        deployLoop envW1 2 none false 0 0 Trace.init ∧
      (deployLoop envW1 2 none false 0 0 Trace.init).isSome = true ∧
      deployLoop envW1 (Nat.succ 0) none true 0 0 Trace.init =
        some (DeployResult.err cErr,
          (attemptBody envW1 none 0 0 Trace.init).2.2)) :=
  ⟨by omega, rfl, rfl,
    C1_at_most_one_override envW1 none 2 (by omega) envW1 none 0 0 0
      Trace.init cErr rfl rfl⟩

/-- Claim C8: a deploy failure that is neither a shape mismatch nor
classified as cluster removal is re-raised unchanged by
`deploy_app_package`, and the confirmation gate is never invoked (no
prompt, no line read). -/
theorem C8_other_failure_propagates (env : Env) (d : Option Dir)
    (e : PyErr) (fuel : Nat) (hfuel : 1 ≤ fuel)
    (hreach : env.isLocalMode = true ∨ env.cloudTenant ≠ "")
    (hdep : (deploy_with_pyvespa (env.deployers 0)).1 = Except.error e)
    (_hshape : should_fallback e = false)
    (hclass : looks_like_cluster_removal_error e.message = false) :
    ∃ tr, deploy_app_package fuel d env = some (DeployResult.err e, tr) ∧
      tr.gateCalls = 0 ∧ tr.linesRead = 0 := by
  obtain ⟨m, rfl⟩ : ∃ m, fuel = Nat.succ m := ⟨fuel - 1, by omega⟩
  unfold deploy_app_package
  have hb := attemptBody_result_err env d 0 0 Trace.init e hreach hdep
  have hf := attemptBody_trace_fields env d 0 0 Trace.init
  rcases hab : attemptBody env d 0 0 Trace.init with ⟨res, c1, tr1⟩
  rw [hab] at hb hf
  simp only [Prod.fst] at hb
  subst hb
  simp only [deployLoop, hab]
  refine ⟨tr1, ?_, ?_, ?_⟩
  · simp [hclass]
  · simpa using hf.1
  · simpa using hf.2.2.1

/-- Local-mode world whose deploy fails with a non-mismatch,
non-cluster-removal error. -/
def envW8 : Env :=
  { isLocalMode := true, cloudTenant := "", deployers := fun _ => wDep2,
    stdinIsatty := false, inputLines := fun _ => "",
    today := { epochDays := 738000 } }

/-- Witness for claim C8 at a concrete world. -/
theorem C8_other_failure_propagates_witness :
    (1 ≤ 1 ∧ (envW8.isLocalMode = true ∨ envW8.cloudTenant ≠ "") ∧
      (deploy_with_pyvespa (envW8.deployers 0)).1 = Except.error wErrOther ∧
      should_fallback wErrOther = false ∧
      looks_like_cluster_removal_error wErrOther.message = false) ∧
    (∃ tr, deploy_app_package 1 none envW8 =
        some (DeployResult.err wErrOther, tr) ∧
      tr.gateCalls = 0 ∧ tr.linesRead = 0) :=
  ⟨⟨by omega, Or.inl rfl, rfl, rfl, rfl⟩,
    C8_other_failure_propagates envW8 none wErrOther 1 (by omega)
      (Or.inl rfl) rfl rfl rfl⟩

/-- Claim C9: in cloud mode with no tenant configured,
`deploy_app_package` raises the runtime error naming
VESPA_CLOUD_TENANT before any client is constructed; the error is not
retried and not converted to a false return. -/
theorem C9_missing_tenant_fatal (env : Env) (d : Option Dir) (fuel : Nat)
    (hfuel : 1 ≤ fuel) (hmode : env.isLocalMode = false)
    (htenant : env.cloudTenant = "") :
    ∃ tr, deploy_app_package fuel d env =
        some (DeployResult.err tenantErr, tr) ∧
      tenantErr.message = "Missing env var: VESPA_CLOUD_TENANT" ∧
      tr.clientsConstructed = 0 ∧ tr.deployCalls = 0 ∧
      tr.attemptDirs.length = 1 := by
  obtain ⟨m, rfl⟩ : ∃ m, fuel = Nat.succ m := ⟨fuel - 1, by omega⟩
  unfold deploy_app_package
  have hb := attemptBody_tenant env d 0 0 Trace.init hmode htenant
  have hf := attemptBody_trace_fields env d 0 0 Trace.init
  rcases hab : attemptBody env d 0 0 Trace.init with ⟨res, c1, tr1⟩
  rw [hab] at hb hf
  simp only [Prod.fst] at hb
  obtain ⟨hb1, hb2, hb3⟩ := hb
  subst hb1
  simp only [deployLoop, hab]
  refine ⟨tr1, ?_, rfl, ?_, ?_, ?_⟩
  · simp [show looks_like_cluster_removal_error tenantErr.message = false
      from rfl]
  · simpa using hb2
  · simpa using hb3
  · have := hf.2.2.2.2
    simp only [Prod.snd] at this
    rw [this]
    simp [Trace.init]

/-- Cloud-mode world with an empty tenant. -/
def envW9 : Env :=
  { isLocalMode := false, cloudTenant := "",
    deployers := fun _ => refusingDeployer, stdinIsatty := false,
    inputLines := fun _ => "", today := { epochDays := 738000 } }

/-- Witness for claim C9 at a concrete world. -/
theorem C9_missing_tenant_fatal_witness :
    (1 ≤ 1 ∧ envW9.isLocalMode = false ∧ envW9.cloudTenant = "") ∧
    (∃ tr, deploy_app_package 1 (some (Dir.caller 0)) envW9 =
        some (DeployResult.err tenantErr, tr) ∧
      tenantErr.message = "Missing env var: VESPA_CLOUD_TENANT" ∧
      tr.clientsConstructed = 0 ∧ tr.deployCalls = 0 ∧
      tr.attemptDirs.length = 1) :=
  ⟨⟨by omega, rfl, rfl⟩,
    C9_missing_tenant_fatal envW9 (some (Dir.caller 0)) 1 (by omega) rfl rfl⟩

/-- Claim C3: when the first deploy attempt fails with a cluster-removal
failure and the gate denies (non-interactive stdin, or a non-affirmative
answer), `deploy_app_package` returns false without raising, and no
validation-overrides file is written to any directory. -/
theorem C3_denied_override_returns_false (env : Env) (d : Option Dir)
    (e : PyErr) (fuel : Nat) (hfuel : 1 ≤ fuel)
    (hbody : (attemptBody env d 0 0 Trace.init).1 = Except.error e)
    (hclass : looks_like_cluster_removal_error e.message = true)
    (hdeny : env.stdinIsatty = false ∨
      (pyLower (pyStrip (env.inputLines 0)) ≠ "y" ∧
       pyLower (pyStrip (env.inputLines 0)) ≠ "yes")) :
    ∃ tr, deploy_app_package fuel d env = some (DeployResult.ok false, tr) ∧
      tr.overrideWrites = [] := by
  obtain ⟨m, rfl⟩ : ∃ m, fuel = Nat.succ m := ⟨fuel - 1, by omega⟩
  unfold deploy_app_package
  have hf := attemptBody_trace_fields env d 0 0 Trace.init
  rcases hab : attemptBody env d 0 0 Trace.init with ⟨res, c1, tr1⟩
  rw [hab] at hbody hf
  simp only [Prod.fst] at hbody
  subst hbody
  have hgc : tr1.gateCalls = 0 := by simpa [Trace.init] using hf.1
  have how : tr1.overrideWrites = [] := by simpa [Trace.init] using hf.2.2.2.1
  have hg : (confirm_cluster_removal e.message (env.today.addDays 7)
      env.stdinIsatty (env.inputLines 0)).confirmed = false := by
    rcases hdeny with hni | ⟨hy, hyes⟩
    · simp [confirm_cluster_removal, hni]
    · cases ht : env.stdinIsatty
      · simp [confirm_cluster_removal]
      · simp [confirm_cluster_removal, hy, hyes]
  simp only [deployLoop, hab, hclass, Bool.not_false, Bool.and_true, if_true,
    hgc, hg]
  refine ⟨_, rfl, ?_⟩
  simpa using how

/-- Local-mode world refusing with the cluster-removal message, with
non-interactive stdin. -/
def envW3 : Env :=
  { isLocalMode := true, cloudTenant := "",
    deployers := fun _ => refusingDeployer, stdinIsatty := false,
    inputLines := fun _ => "", today := { epochDays := 738000 } }

/-- Witness for claim C3 at a concrete world. -/
theorem C3_denied_override_returns_false_witness :
    (1 ≤ 1 ∧ (attemptBody envW3 none 0 0 Trace.init).1 = Except.error cErr ∧
      looks_like_cluster_removal_error cErr.message = true ∧
      envW3.stdinIsatty = false) ∧
    (∃ tr, deploy_app_package 1 none envW3 =
        some (DeployResult.ok false, tr) ∧
      tr.overrideWrites = []) :=
  ⟨⟨by omega, rfl, rfl, rfl⟩,
    C3_denied_override_returns_false envW3 none cErr 1 (by omega) rfl rfl
      (Or.inl rfl)⟩

/-- With an override already attempted and a successful body, the loop
returns true together with the body's trace. -/
theorem deployLoop_attempted_ok (env : Env) (m : Nat) (d2 : Option Dir)
    (i c : Nat) (tr : Trace)
    (hok : (attemptBody env d2 i c tr).1 = Except.ok ()) :
    deployLoop env (Nat.succ m) d2 true i c tr =
      some (DeployResult.ok true, (attemptBody env d2 i c tr).2.2) := by
  rw [deployLoop_attempted]
  rcases hab : attemptBody env d2 i c tr with ⟨res, c1, tr1⟩
  rw [hab] at hok
  simp only [Prod.fst] at hok
  subst hok
  simp

/-- First iteration with a classified failure and a confirming gate:
the loop writes the override into the target directory and restarts with
`app_dir` rebound to that directory and the override marked attempted. -/
theorem deployLoop_confirmed (env : Env) (m : Nat) (d : Option Dir)
    (e : PyErr) (c1 : Nat) (tr1 : Trace)
    (hab : attemptBody env d 0 0 Trace.init = (Except.error e, c1, tr1))
    (hclass : looks_like_cluster_removal_error e.message = true)
    (hg : (confirm_cluster_removal e.message (env.today.addDays 7)
        env.stdinIsatty (env.inputLines tr1.gateCalls)).confirmed = true) :
    ∃ c2 tr3,
      deployLoop env (Nat.succ m) d false 0 0 Trace.init =
        deployLoop env m (some (d.getD (Dir.temp c1))) true 1 c2 tr3 ∧
      tr3.overrideWrites = tr1.overrideWrites ++
        [(d.getD (Dir.temp c1),
          validation_overrides_xml (env.today.addDays 7))] ∧
      tr3.attemptDirs = tr1.attemptDirs ∧
      tr3.gateCalls = tr1.gateCalls + 1 := by
  have key : deployLoop env (Nat.succ m) d false 0 0 Trace.init =
      deployLoop env m (some (d.getD (Dir.temp c1))) true 1
        (match d with | some _ => c1 | none => c1 + 1)
        { tr1 with
          overrideWrites := tr1.overrideWrites ++
            [(d.getD (Dir.temp c1),
              validation_overrides_xml (env.today.addDays 7))],
          gateCalls := tr1.gateCalls + 1,
          gateWarnings := tr1.gateWarnings +
            (if (confirm_cluster_removal e.message (env.today.addDays 7)
                env.stdinIsatty (env.inputLines tr1.gateCalls)).warned
              then 1 else 0),
          linesRead := tr1.linesRead +
            (confirm_cluster_removal e.message (env.today.addDays 7)
              env.stdinIsatty (env.inputLines tr1.gateCalls)).linesRead } := by
    simp only [deployLoop, hab, hclass, Bool.not_false, Bool.and_true,
      if_true, hg, Nat.zero_add]
    cases d <;> rfl
  exact ⟨_, _, key, by simp, by simp, by simp⟩

/-- Claim C4: when the first deploy attempt fails with a cluster-removal
failure, no override has been attempted, and the gate confirms, a
validation-overrides.xml whose `allow` grant carries `until` = today + 7
days in ISO-8601 form inside a `validation-overrides` root is written
into the resolved application root, and the deploy is retried exactly
once using that same now-overridden root; a successful retry returns
true. -/
theorem C4_confirmed_override_retries_once (env : Env) (d : Option Dir)
    (e : PyErr) (h : Handle) (fuel : Nat) (hfuel : 2 ≤ fuel)
    (hbody : (attemptBody env d 0 0 Trace.init).1 = Except.error e)
    (hclass : looks_like_cluster_removal_error e.message = true)
    (htty : env.stdinIsatty = true)
    (hyes : pyLower (pyStrip (env.inputLines 0)) = "y" ∨
      pyLower (pyStrip (env.inputLines 0)) = "yes")
    (hretry : (deploy_with_pyvespa (env.deployers 1)).1 = Except.ok h) :
    ∃ tr tgt d0,
      deploy_app_package fuel d env = some (DeployResult.ok true, tr) ∧
      tr.overrideWrites =
        [(tgt, validation_overrides_xml (env.today.addDays 7))] ∧
      tr.attemptDirs = [d0, tgt] ∧
      validation_overrides_xml (env.today.addDays 7) =
        "<validation-overrides>\n" ++
          ("  <allow until=\x27" ++ (env.today.addDays 7).isoformat ++
            "\x27>" ++ "content-cluster-removal" ++ "</allow>\n") ++
          "</validation-overrides>\n" := by
  obtain ⟨m, rfl⟩ : ∃ m, fuel = Nat.succ (Nat.succ m) := ⟨fuel - 2, by omega⟩
  have hne : e.message ≠ tenantErr.message := by
    intro hEq
    rw [hEq] at hclass
    exact absurd hclass (by decide)
  have hreach := attemptBody_reach env d 0 0 Trace.init e hbody hne
  have hf := attemptBody_trace_fields env d 0 0 Trace.init
  rcases hab : attemptBody env d 0 0 Trace.init with ⟨res, c1, tr1⟩
  rw [hab] at hbody hf
  simp only [Prod.fst] at hbody
  subst hbody
  have hgc : tr1.gateCalls = 0 := by simpa [Trace.init] using hf.1
  have how : tr1.overrideWrites = [] := by simpa [Trace.init] using hf.2.2.2.1
  have had : tr1.attemptDirs = [d.getD (Dir.temp 0)] := by
    simpa [Trace.init] using hf.2.2.2.2
  have hg : (confirm_cluster_removal e.message (env.today.addDays 7)
      env.stdinIsatty (env.inputLines tr1.gateCalls)).confirmed = true := by
    rw [hgc]
    rcases hyes with hy | hy <;> simp [confirm_cluster_removal, htty, hy]
  obtain ⟨c2, tr3, key, how3, had3, _⟩ :=
    deployLoop_confirmed env (Nat.succ m) d e c1 tr1 hab hclass hg
  unfold deploy_app_package
  rw [key]
  have hok := attemptBody_result_ok env (some (d.getD (Dir.temp c1))) 1 c2
    tr3 h hreach hretry
  rw [deployLoop_attempted_ok env m (some (d.getD (Dir.temp c1))) 1 c2 tr3
    hok]
  have hf2 := attemptBody_trace_fields env (some (d.getD (Dir.temp c1))) 1
    c2 tr3
  refine ⟨_, d.getD (Dir.temp c1), d.getD (Dir.temp 0), rfl, ?_, ?_, rfl⟩
  · rw [hf2.2.2.2.1, how3, how]
    simp
  · rw [hf2.2.2.2.2, had3, had]
    simp

/-- A deployer whose first call shape succeeds. -/
def okDeployer : Deployer :=
  { shape1 := Except.ok 3, shape2 := Except.ok 3, shape0 := Except.ok 3 }

/-- Local-mode world whose first deploy attempt is refused with the
cluster-removal message and whose second attempt succeeds, with an
interactive stdin answering "y". -/
def envW4 : Env :=
  { isLocalMode := true, cloudTenant := "",
    deployers := fun i => if i = 0 then refusingDeployer else okDeployer,
    stdinIsatty := true, inputLines := fun _ => "y",
    today := { epochDays := 738000 } }

/-- Witness for claim C4 at a concrete world. -/
theorem C4_confirmed_override_retries_once_witness :
    (2 ≤ 2 ∧ (attemptBody envW4 none 0 0 Trace.init).1 = Except.error cErr ∧
      looks_like_cluster_removal_error cErr.message = true ∧
      envW4.stdinIsatty = true ∧
      pyLower (pyStrip (envW4.inputLines 0)) = "y" ∧
      (deploy_with_pyvespa (envW4.deployers 1)).1 = Except.ok 3) ∧
    (∃ tr tgt d0,
      deploy_app_package 2 none envW4 = some (DeployResult.ok true, tr) ∧
      tr.overrideWrites =
        [(tgt, validation_overrides_xml (envW4.today.addDays 7))] ∧
      tr.attemptDirs = [d0, tgt] ∧
      validation_overrides_xml (envW4.today.addDays 7) =
        "<validation-overrides>\n" ++
          ("  <allow until=\x27" ++ (envW4.today.addDays 7).isoformat ++
            "\x27>" ++ "content-cluster-removal" ++ "</allow>\n") ++
          "</validation-overrides>\n") :=
  ⟨⟨by omega, rfl, rfl, rfl, rfl, rfl⟩,
    C4_confirmed_override_retries_once envW4 none cErr 3 2 (by omega) rfl
      rfl rfl (Or.inl rfl) rfl⟩

/-- Index-by-index description of the chunk-window loop: with adequate
fuel, entry `i` exists iff its window start `start + i * (cs - ov)` is
inside the word list, and equals the joined clipped window. -/
theorem chunkLoop_get_eq (words : List String) (cs ov : Nat) (hlt : ov < cs) :
    ∀ fuel start, words.length ≤ start + fuel → ∀ i,
      (chunkLoop words cs ov start fuel).get? i =
        (if start + i * (cs - ov) < words.length then
          some (pyJoin " " ((words.drop (start + i * (cs - ov))).take cs))
        else none) := by
  intro fuel
  induction fuel with
  | zero =>
    intro start hade i
    have hnot : ¬ start + i * (cs - ov) < words.length := by
      generalize i * (cs - ov) = t
      omega
    rw [if_neg hnot]
    simp [chunkLoop]
  | succ n ih =>
    intro start hade i
    by_cases hs : start < words.length
    · rw [show chunkLoop words cs ov start (Nat.succ n) =
          pyJoin " " ((words.drop start).take cs) ::
            chunkLoop words cs ov (start + (cs - ov)) n from by
        simp [chunkLoop, hs]]
      cases i with
      | zero => simp [hs]
      | succ j =>
        rw [List.get?_cons_succ, ih (start + (cs - ov)) (by omega) j]
        have heq : start + (cs - ov) + j * (cs - ov) =
            start + (j + 1) * (cs - ov) := by
          rw [Nat.add_mul, Nat.one_mul]
          generalize j * (cs - ov) = t
          omega
        rw [heq]
    · have hnot : ¬ start + i * (cs - ov) < words.length := by
        generalize i * (cs - ov) = t
        omega
      rw [if_neg hnot]
      simp [chunkLoop, hs]

/-- Entry count of the chunk-window loop: entry `i` exists iff its
window start is inside the word list. -/
theorem chunkLoop_mem_iff (words : List String) (cs ov : Nat)
    (hlt : ov < cs) (fuel start : Nat)
    (hade : words.length ≤ start + fuel) (i : Nat) :
    i < (chunkLoop words cs ov start fuel).length ↔
      start + i * (cs - ov) < words.length := by
  have h := chunkLoop_get_eq words cs ov hlt fuel start hade i
  by_cases hc : start + i * (cs - ov) < words.length
  · rw [if_pos hc] at h
    simp only [hc, iff_true]
    by_contra hge
    rw [List.get?_eq_none.mpr (by omega)] at h
    cases h
  · rw [if_neg hc] at h
    simp only [hc, iff_false]
    intro hi
    rw [List.get?_eq_none] at h
    omega

/-- Eleven whitespace-separated words. -/
def cexText : String := "a b c d e f g h i j k"

/-- Counterexample to claim C10 as stated: with valid parameters
chunk_size = 10 and overlap = 5 on an 11-word text, the result has three
chunks and the middle chunk (not the last) has 6 words, not
chunk_size. -/
theorem C10_counterexample :
    chunks cexText 10 5 =
      Except.ok ["a b c d e f g h i j", "f g h i j k", "k"] ∧
    (pySplit cexText).length = 11 ∧
    (0 : Int) < 10 ∧ (0 : Int) ≤ 5 ∧ (5 : Int) < 10 ∧
    ¬ (∀ c, c ∈ (["a b c d e f g h i j", "f g h i j k",
          "k"] : List String).dropLast →
        (pySplit c).length = 10) := by
  refine ⟨rfl, rfl, by norm_num, by norm_num, by norm_num, ?_⟩
  intro hAll
  exact absurd (hAll "f g h i j k" (by simp)) (by decide)

/-- Claim C10 (amended): `chunks` raises ValueError exactly for invalid
parameters; for valid parameters a text of at most chunk_size words
yields the one-element list of the unchanged text; otherwise chunk `i`
is the window of chunk_size words starting at word index
`i * (chunk_size - overlap)` clipped at the end of the word list — so
consecutive starts differ by exactly chunk_size - overlap, every chunk
whose window lies fully inside the text has exactly chunk_size words
(later ones only the remaining words), and all words are covered in
order. -/
theorem C10_chunks_amended (text : String) (cs ov : Int)
    (bt : String) (bcs bov : Int)
    (hbad : bcs ≤ 0 ∨ bov < 0 ∨ bcs ≤ bov)
    (hcs : 0 < cs) (hov : 0 ≤ ov) (hlt : ov < cs) :
    (∃ msg, chunks bt bcs bov = Except.error msg) ∧
    ((pySplit text).length ≤ cs.toNat → chunks text cs ov = Except.ok [text]) ∧
    (cs.toNat < (pySplit text).length →
      ∃ l, chunks text cs ov = Except.ok l ∧
        (∀ i, i < l.length ↔
          i * (cs.toNat - ov.toNat) < (pySplit text).length) ∧
        (∀ i, l.get? i =
          (if i * (cs.toNat - ov.toNat) < (pySplit text).length then
            some (pyJoin " "
              (((pySplit text).drop (i * (cs.toNat - ov.toNat))).take
                cs.toNat))
          else none)) ∧
        (∀ j, j < (pySplit text).length →
          ∃ i, i < l.length ∧ i * (cs.toNat - ov.toNat) ≤ j ∧
            j < i * (cs.toNat - ov.toNat) + cs.toNat)) := by
  have hltN : ov.toNat < cs.toNat := by omega
  refine ⟨?_, ?_, ?_⟩
  · unfold chunks
    split_ifs with h1 h2 h3
    · exact ⟨_, rfl⟩
    · exact ⟨_, rfl⟩
    · exact ⟨_, rfl⟩
    · exact absurd hbad (by omega)
  · intro hshort
    simp only [chunks]
    rw [if_neg (by omega), if_neg (by omega), if_neg (by omega),
      if_pos hshort]
  · intro hlong
    have hchunks : chunks text cs ov = Except.ok
        (chunkLoop (pySplit text) cs.toNat ov.toNat 0
          (pySplit text).length) := by
      simp only [chunks]
      rw [if_neg (by omega), if_neg (by omega), if_neg (by omega),
        if_neg (by omega)]
    refine ⟨_, hchunks, ?_, ?_, ?_⟩
    · intro i
      have hiff := chunkLoop_mem_iff (pySplit text) cs.toNat ov.toNat hltN
        (pySplit text).length 0 (by omega) i
      rw [Nat.zero_add] at hiff
      exact hiff
    · intro i
      have hget := chunkLoop_get_eq (pySplit text) cs.toNat ov.toNat hltN
        (pySplit text).length 0 (by omega) i
      rw [Nat.zero_add] at hget
      exact hget
    · intro j hj
      have hs0 : 0 < cs.toNat - ov.toNat := by omega
      refine ⟨j / (cs.toNat - ov.toNat), ?_, Nat.div_mul_le_self _ _, ?_⟩
      · have hiff := chunkLoop_mem_iff (pySplit text) cs.toNat ov.toNat hltN
          (pySplit text).length 0 (by omega) (j / (cs.toNat - ov.toNat))
        rw [hiff, Nat.zero_add]
        have h1 := Nat.div_mul_le_self j (cs.toNat - ov.toNat)
        generalize hP : j / (cs.toNat - ov.toNat) * (cs.toNat - ov.toNat) =
          P at h1 ⊢
        omega
      · have h1 := Nat.div_add_mod' j (cs.toNat - ov.toNat)
        have h2 : j % (cs.toNat - ov.toNat) < cs.toNat - ov.toNat :=
          Nat.mod_lt _ hs0
        generalize hP : j / (cs.toNat - ov.toNat) * (cs.toNat - ov.toNat) =
          P at h1 ⊢
        generalize hr : j % (cs.toNat - ov.toNat) = r at h1 h2
        omega

/-- Witness for the amended claim C10 at a concrete text and
parameters. -/
theorem C10_chunks_amended_witness :
    ((0 : Int) ≤ 0 ∧ (0 : Int) < 2 ∧ (0 : Int) ≤ 1 ∧ (1 : Int) < 2) ∧
    ((∃ msg, chunks "" 0 0 = Except.error msg) ∧
      ((pySplit "a b c").length ≤ (2 : Int).toNat →
        chunks "a b c" 2 1 = Except.ok ["a b c"]) ∧
      ((2 : Int).toNat < (pySplit "a b c").length →
        ∃ l, chunks "a b c" 2 1 = Except.ok l ∧
          (∀ i, i < l.length ↔
            i * ((2 : Int).toNat - (1 : Int).toNat) <
              (pySplit "a b c").length) ∧
          (∀ i, l.get? i =
            (if i * ((2 : Int).toNat - (1 : Int).toNat) <
                (pySplit "a b c").length then
              some (pyJoin " "
                (((pySplit "a b c").drop
                  (i * ((2 : Int).toNat - (1 : Int).toNat))).take
                    (2 : Int).toNat))
            else none)) ∧
          (∀ j, j < (pySplit "a b c").length →
            ∃ i, i < l.length ∧
              i * ((2 : Int).toNat - (1 : Int).toNat) ≤ j ∧
              j < i * ((2 : Int).toNat - (1 : Int).toNat) +
                (2 : Int).toNat))) :=
  ⟨⟨by norm_num, by norm_num, by norm_num, by norm_num⟩,
    C10_chunks_amended "a b c" 2 1 "" 0 0 (Or.inl (by norm_num))
      (by norm_num) (by norm_num) (by norm_num)⟩

end NyRAG
